import Mathlib

/-!
Shallow embedding of the bounded notification dispatcher (the `EmailService`
class of `src/scripts/fix-admin-user.ts`, second document): environment-driven
construction, the `sendEmail` timeout race, and the approval-notification
template builder. JavaScript strings become `String`, possibly-undefined
environment values become `Option String`, the transport promise becomes an
explicit `TransportBehavior`, and the `Promise.race` with the 5000 ms timer
becomes a total function on that behaviour.
-/

namespace GlamHome

/-- JavaScript truthiness of a possibly-undefined string environment value:
`undefined` and the empty string are falsy, every other string is truthy. -/
def jsTruthy : Option String → Bool
  | none => false
  | some s => !(s == "")

/-- JavaScript `a || d` for a possibly-undefined string `a` and a string
default `d`: the value of `a` when truthy, otherwise `d`. -/
def jsOrD : Option String → String → String
  | none, d => d
  | some s, d => if s == "" then d else s

/-- Character-list version of `String.startsWith`, used to define substring
containment by structural recursion. -/
def charsStarts : List Char → List Char → Bool
  | [], _ => true
  | _ :: _, [] => false
  | a :: as, b :: bs => a == b && charsStarts as bs

/-- `charsHas pat l` holds when `pat` occurs contiguously inside `l`;
this is the model of JavaScript `String.prototype.includes`. -/
def charsHas (pat : List Char) : List Char → Bool
  | [] => charsStarts pat []
  | c :: rest => charsStarts pat (c :: rest) || charsHas pat rest

/-- Model of JavaScript `s.includes(pat)`. -/
def strContains (s pat : String) : Bool :=
  charsHas pat.data s.data

theorem charsStarts_self_append (p q : List Char) : charsStarts p (p ++ q) = true := by
  induction p with
  | nil => rfl
  | cons a as ih => simp [charsStarts, ih]

theorem charsHas_self_append (p q : List Char) : charsHas p (p ++ q) = true := by
  cases hpq : p ++ q with
  | nil =>
    rcases List.append_eq_nil.mp hpq with ⟨hp, _⟩
    subst hp
    rfl
  | cons c r =>
    rw [charsHas, ← hpq, charsStarts_self_append]
    rfl

theorem charsHas_append_left (pat l2 : List Char) (h : charsHas pat l2 = true) :
    ∀ l1 : List Char, charsHas pat (l1 ++ l2) = true := by
  intro l1
  induction l1 with
  | nil => simpa using h
  | cons c r ih => simp [charsHas, ih]

theorem strContains_data (s pat : String) :
    strContains s pat = charsHas pat.data s.data := rfl

/-- The process environment values read by the service. Each field is a
possibly-undefined string, as `process.env` reports them. -/
structure Env where
  SMTP_HOST : Option String
  SMTP_PORT : Option String
  SMTP_USER : Option String
  SMTP_PASS : Option String
  FRONTEND_URL : Option String
  REPLIT_DOMAINS : Option String
deriving DecidableEq

/-- The constructor guard `process.env.SMTP_HOST && process.env.SMTP_USER &&
process.env.SMTP_PASS`: JavaScript truthiness of the three credentials. -/
def isConfigured (env : Env) : Bool :=
  jsTruthy env.SMTP_HOST && jsTruthy env.SMTP_USER && jsTruthy env.SMTP_PASS

/-- `EMAIL_TIMEOUT_MS = 5000`, the fixed bound used for the transport
timeouts, the race timer and both timeout messages. -/
def EMAIL_TIMEOUT_MS : Nat := 5000

/-- Decimal value of a leading run of digits, `none` when there is none
(JavaScript `parseInt` returning `NaN`). -/
def leadingNat (cs : List Char) : Option Nat :=
  match cs.takeWhile Char.isDigit with
  | [] => none
  | ds => some (ds.foldl (fun a c => a * 10 + (c.toNat - 48)) 0)

/-- Model of JavaScript `parseInt` on the strings this program feeds it:
an optional sign followed by decimal digits; `none` models `NaN`. -/
def jsParseInt (s : String) : Option Int :=
  match s.data with
  | '-' :: rest => (leadingNat rest).map (fun n => -(n : Int))
  | '+' :: rest => (leadingNat rest).map (fun n => (n : Int))
  | cs => (leadingNat cs).map (fun n => (n : Int))

/-- The options object passed to `nodemailer.createTransport`. -/
structure TransportConfig where
  host : Option String
  port : Option Int
  secure : Bool
  user : Option String
  pass : Option String
  connectionTimeout : Nat
  socketTimeout : Nat
  greetingTimeout : Nat
deriving DecidableEq

/-- The transport options built in the constructor when configured. -/
def buildTransportConfig (env : Env) : TransportConfig :=
  { host := env.SMTP_HOST
  , port := jsParseInt (jsOrD env.SMTP_PORT "587")
  , secure := env.SMTP_PORT == some "465"
  , user := env.SMTP_USER
  , pass := env.SMTP_PASS
  , connectionTimeout := EMAIL_TIMEOUT_MS
  , socketTimeout := EMAIL_TIMEOUT_MS
  , greetingTimeout := EMAIL_TIMEOUT_MS }

/-- Severity levels of the logging collaborator. -/
inductive LogLevel where
  | info
  | warn
  | error
deriving DecidableEq

/-- One structured log event: level, message, and the metadata object;
a `none` field value models a JavaScript `undefined` property. -/
structure LogEvent where
  level : LogLevel
  message : String
  fields : List (String × Option String)
deriving DecidableEq

/-- The dispatcher state after construction: `transporter` is the single
transport client handle, or `none` in the unconfigured mode. -/
structure EmailService where
  transporter : Option TransportConfig
deriving DecidableEq

/-- The `EmailService` constructor: builds the transport client exactly when
the guard holds, and emits one log event either way. Total — it never
throws. -/
def makeEmailService (env : Env) : EmailService × List LogEvent :=
  if isConfigured env then
    ({ transporter := some (buildTransportConfig env) },
     [{ level := .info, message := "Email service initialized",
        fields := [("host", env.SMTP_HOST), ("port", some (jsOrD env.SMTP_PORT "587"))] }])
  else
    ({ transporter := none },
     [{ level := .warn, message := "Email service not configured - SMTP credentials missing",
        fields := [] }])

/-- A send request: `{to, subject, html}`. -/
structure EmailOptions where
  «to» : String
  subject : String
  html : String
deriving DecidableEq

/-- The structured result returned to the caller: `{success, error?}`. -/
structure SendResult where
  success : Bool
  error : Option String
deriving DecidableEq

/-- The message handed to `transporter.sendMail`. The field `from` is a
Lean keyword, hence the guillemets; it models the same-named property. -/
structure MailOptions where
  «from» : Option String
  «to» : String
  subject : String
  html : String
deriving DecidableEq

/-- One possible behaviour of the underlying transport promise for a call:
it resolves after `delay` ms with an optional message id, rejects after
`delay` ms with an `Error` carrying `message`, rejects after `delay` ms
with a value that is not an `Error` instance, or never settles. -/
inductive TransportBehavior where
  | resolves (messageId : Option String) (delay : Nat)
  | rejectsError (message : String) (delay : Nat)
  | rejectsOther (delay : Nat)
  | hangs
deriving DecidableEq

/-- Whether the transport promise settles strictly before the 5000 ms race
timer fires, i.e. wins `Promise.race`. -/
def transportWins : TransportBehavior → Bool
  | .resolves _ d => d < EMAIL_TIMEOUT_MS
  | .rejectsError _ d => d < EMAIL_TIMEOUT_MS
  | .rejectsOther d => d < EMAIL_TIMEOUT_MS
  | .hangs => false

/-- Elapsed time observed by the code when the race settles: the transport
delay when the transport wins, otherwise the timer bound. -/
def raceDuration : TransportBehavior → Nat
  | .resolves _ d => if d < EMAIL_TIMEOUT_MS then d else EMAIL_TIMEOUT_MS
  | .rejectsError _ d => if d < EMAIL_TIMEOUT_MS then d else EMAIL_TIMEOUT_MS
  | .rejectsOther d => if d < EMAIL_TIMEOUT_MS then d else EMAIL_TIMEOUT_MS
  | .hangs => EMAIL_TIMEOUT_MS

/-- A value caught by the `catch` block: either an `Error` instance with a
message, or any other thrown value. -/
inductive Thrown where
  | errorInstance (message : String)
  | nonError
deriving DecidableEq

/-- `error instanceof Error ? error.message : 'Unknown error'`. -/
def thrownMessage : Thrown → String
  | .errorInstance m => m
  | .nonError => "Unknown error"

/-- The message of the `Error` the race timer rejects with. -/
def timeoutRaceMessage : String :=
  "Email send timeout after " ++ toString EMAIL_TIMEOUT_MS ++
    "ms - SMTP server may be slow or unresponsive"

/-- The error text returned to the caller on the timeout branch. -/
def timeoutResultMessage : String :=
  "Email sending timed out or failed after " ++ toString EMAIL_TIMEOUT_MS ++
    "ms. The email may still be queued for delivery."

/-- Outcome of `await Promise.race([sendPromise, timeoutPromise])`: either
the resolved value (the optional message id) or the caught rejection. -/
def raceResult : TransportBehavior → Except Thrown (Option String)
  | .resolves mid d =>
      if d < EMAIL_TIMEOUT_MS then .ok mid
      else .error (.errorInstance timeoutRaceMessage)
  | .rejectsError m d =>
      if d < EMAIL_TIMEOUT_MS then .error (.errorInstance m)
      else .error (.errorInstance timeoutRaceMessage)
  | .rejectsOther d =>
      if d < EMAIL_TIMEOUT_MS then .error .nonError
      else .error (.errorInstance timeoutRaceMessage)
  | .hangs => .error (.errorInstance timeoutRaceMessage)

/-- Everything one `sendEmail` call produces: the returned result, the log
events in order, and the message handed to the transport (`none` when no
transport call was attempted). -/
structure SendOutcome where
  result : SendResult
  logs : List LogEvent
  transportCall : Option MailOptions
deriving DecidableEq

/-- `EmailService.sendEmail`, with the transport behaviour made explicit:
the unconfigured guard, the mail-options build, the timeout race, and the
`catch` block with its timeout-substring check. -/
def sendEmailFull (env : Env) (options : EmailOptions) (b : TransportBehavior) : SendOutcome :=
  if ((makeEmailService env).1.transporter).isNone then
    { result := { success := false, error := some "Email service not configured" }
    , logs := [{ level := .warn, message := "Email service not configured - email not sent",
                 fields := [("to", some options.«to»)] }]
    , transportCall := none }
  else
    let mailOptions : MailOptions :=
      { «from» := env.SMTP_USER, «to» := options.«to»
      , subject := options.subject, html := options.html }
    let attemptLog : LogEvent :=
      { level := .info, message := "Attempting to send email"
      , fields := [("to", some options.«to»), ("subject", some options.subject)] }
    match raceResult b with
    | .ok messageId =>
        { result := { success := true, error := none }
        , logs := [attemptLog,
            { level := .info, message := "Email sent successfully"
            , fields := [("to", some options.«to»), ("subject", some options.subject),
                         ("duration", some (toString (raceDuration b) ++ "ms")),
                         ("messageId", messageId)] }]
        , transportCall := some mailOptions }
    | .error e =>
        let errorMessage := thrownMessage e
        let errLog : LogEvent :=
          { level := .error, message := "Failed to send email"
          , fields := [("to", some options.«to»), ("subject", some options.subject),
                       ("error", some errorMessage),
                       ("duration", some (toString (raceDuration b) ++ "ms"))] }
        if strContains errorMessage "timeout" then
          { result := { success := false, error := some timeoutResultMessage }
          , logs := [attemptLog, errLog]
          , transportCall := some mailOptions }
        else
          { result := { success := false, error := some errorMessage }
          , logs := [attemptLog, errLog]
          , transportCall := some mailOptions }

/-- The result component of a `sendEmail` call. -/
def sendEmail (env : Env) (options : EmailOptions) (b : TransportBehavior) : SendResult :=
  (sendEmailFull env options b).result

/-- Literal chunk 1 of the approval template (between the substitutions). -/
def htmlPart1 : String :=
  "\n      <!DOCTYPE html>\n      <html>\n        <head>\n          <meta charset=\"UTF-8\">\n          <style>\n            body \x7b font-family: Arial, sans-serif; line-height: 1.6; color: #333; \x7d\n            .container \x7b max-width: 600px; margin: 0 auto; padding: 20px; \x7d\n            .header \x7b background: linear-gradient(135deg, #667eea 0%, #764ba2 100%); color: white; padding: 30px; text-align: center; border-radius: 10px 10px 0 0; \x7d\n            .content \x7b background: #f9f9f9; padding: 30px; border-radius: 0 0 10px 10px; \x7d\n            .credentials \x7b background: white; padding: 20px; border-radius: 8px; margin: 20px 0; border-left: 4px solid #667eea; \x7d\n            .button \x7b display: inline-block; background: #667eea; color: white; padding: 12px 30px; text-decoration: none; border-radius: 5px; margin: 20px 0; \x7d\n            .footer \x7b text-align: center; margin-top: 30px; color: #666; font-size: 12px; \x7d\n          </style>\n        </head>\n        <body>\n          <div class=\"container\">\n            <div class=\"header\">\n              <h1>Welcome to Kosmospace!</h1>\n            </div>\n            <div class=\"content\">\n              <p>Dear "

/-- Literal chunk 2 of the approval template (between the substitutions). -/
def htmlPart2 : String :=
  ",</p>\n              \n              <p>Great news! Your beautician application has been <strong>approved</strong>! 🎉</p>\n              \n              <p>You can now access your beautician dashboard to manage your services, view bookings, and start accepting customers.</p>\n              \n              <div class=\"credentials\">\n                <h3>Your Login Credentials:</h3>\n                <p><strong>Email:</strong> "

/-- Literal chunk 3 of the approval template (between the substitutions). -/
def htmlPart3 : String :=
  "</p>\n                <p><strong>Password:</strong> <code style=\"background: #f0f0f0; padding: 4px 8px; border-radius: 4px; font-size: 14px;\">"

/-- Literal chunk 4 of the approval template (between the substitutions). -/
def htmlPart4 : String :=
  "</code></p>\n                <p style=\"color: #d32f2f; font-size: 12px; margin-top: 10px;\">\n                  ⚠️ Please change your password after your first login for security.\n                </p>\n              </div>\n              \n              <div style=\"text-align: center;\">\n                <a href=\""

/-- Literal chunk 5 of the approval template (between the substitutions). -/
def htmlPart5 : String :=
  "/login\" class=\"button\">Login to Dashboard</a>\n              </div>\n              \n              <p>Once logged in, you can:</p>\n              <ul>\n                <li>Add and manage your services</li>\n                <li>View and manage bookings</li>\n                <li>Update your profile information</li>\n                <li>Track your earnings</li>\n              </ul>\n              \n              <p>If you have any questions, please don\x27t hesitate to contact our support team.</p>\n              \n              <p>Welcome aboard!</p>\n              <p><strong>The Kosmospace Team</strong></p>\n            </div>\n            <div class=\"footer\">\n              <p>This is an automated email. Please do not reply to this message.</p>\n            </div>\n          </div>\n        </body>\n      </html>\n    "

/-- The whole template literal of `sendBeauticianApprovalEmail`, with the
four substitution points made explicit (right-nested appends). -/
def approvalHtml (email firstName password loginUrl : String) : String :=
  htmlPart1 ++ (firstName ++ (htmlPart2 ++ (email ++ (htmlPart3 ++ (password ++ (htmlPart4 ++ (loginUrl ++ htmlPart5)))))))

/-- The fixed subject line of the approval notification. -/
def approvalSubject : String :=
  "Welcome to Kosmospace - Your Application Has Been Approved!"

/-- The hard-coded default login base URL. -/
def defaultLoginBase : String := "https://www.kosmospace.com"

/-- Character-level model of JavaScript `s.split(',')`: maximal runs of
characters between commas, in order; the empty string yields `[""]`. It is
written by structural recursion so that the kernel can evaluate it. -/
def splitCommaAux : List Char → List Char → List String
  | [], acc => [String.mk acc.reverse]
  | c :: rest, acc =>
    if c == ',' then String.mk acc.reverse :: splitCommaAux rest []
    else splitCommaAux rest (c :: acc)

/-- `s.split(',')`. -/
def splitComma (s : String) : List String :=
  splitCommaAux s.data []

/-- `s.split(',')[0]`: first entry of a comma-separated list. `splitComma`
never returns an empty list, so the default of `headD` is unreachable. -/
def firstDomain (s : String) : String :=
  (splitComma s).headD ""

/-- `process.env.FRONTEND_URL || process.env.REPLIT_DOMAINS?.split(',')[0]
|| 'https://www.kosmospace.com'`. -/
def loginUrlOf (env : Env) : String :=
  jsOrD env.FRONTEND_URL (jsOrD (env.REPLIT_DOMAINS.map firstDomain) defaultLoginBase)

/-- `EmailService.sendBeauticianApprovalEmail`: builds the login URL, the
fixed subject and the HTML document, then delegates to `sendEmail`. -/
def sendBeauticianApprovalEmail (env : Env) (email firstName password : String)
    (b : TransportBehavior) : SendOutcome :=
  let loginUrl := loginUrlOf env
  let subject := approvalSubject
  let html := approvalHtml email firstName password loginUrl
  sendEmailFull env { «to» := email, subject := subject, html := html } b



/-! Concrete inputs used by witnesses and counterexamples. -/

/-- A fully configured test environment (port variable unset). -/
def envConfigured : Env :=
  { SMTP_HOST := some "smtp.test", SMTP_PORT := none, SMTP_USER := some "a@test"
  , SMTP_PASS := some "x", FRONTEND_URL := none, REPLIT_DOMAINS := none }

/-- An environment with no credentials at all. -/
def envMissing : Env :=
  { SMTP_HOST := none, SMTP_PORT := none, SMTP_USER := none, SMTP_PASS := none
  , FRONTEND_URL := none, REPLIT_DOMAINS := none }

/-- An environment whose host variable is present but empty. -/
def envEmptyHost : Env :=
  { SMTP_HOST := some "", SMTP_PORT := none, SMTP_USER := some "a@test"
  , SMTP_PASS := some "x", FRONTEND_URL := none, REPLIT_DOMAINS := none }

/-- Front-end URL present but empty; domain list present and non-empty. -/
def envEmptyFrontend : Env :=
  { SMTP_HOST := none, SMTP_PORT := none, SMTP_USER := none, SMTP_PASS := none
  , FRONTEND_URL := some "", REPLIT_DOMAINS := some "app.test,alt.test" }

/-- A well-formed request used by the witnesses. -/
def optsSample : EmailOptions :=
  { «to» := "b@test", subject := "Hello", html := "<p>hi</p>" }

/-! Helper lemmas shared by the claim proofs. -/

theorem makeEmailService_transporter_of_configured (env : Env) (h : isConfigured env = true) :
    (makeEmailService env).1.transporter = some (buildTransportConfig env) := by
  simp [makeEmailService, h]

theorem makeEmailService_transporter_of_unconfigured (env : Env) (h : isConfigured env = false) :
    (makeEmailService env).1.transporter = none := by
  simp [makeEmailService, h]

theorem raceResult_of_timer (b : TransportBehavior) (h : transportWins b = false) :
    raceResult b = .error (.errorInstance timeoutRaceMessage) := by
  cases b <;> simp_all [transportWins, raceResult]

theorem timeoutRaceMessage_has_timeout : strContains timeoutRaceMessage "timeout" = true := by
  decide

theorem unknownError_no_timeout : strContains "Unknown error" "timeout" = false := by
  decide

theorem strContains_append_right (s t pat : String) (h : strContains t pat = true) :
    strContains (s ++ t) pat = true := by
  rw [strContains, String.data_append]
  exact charsHas_append_left _ _ h _

theorem strContains_self_append_str (pat t : String) : strContains (pat ++ t) pat = true := by
  rw [strContains, String.data_append]
  exact charsHas_self_append _ _

theorem strContains_prepend_self (u s t : String) :
    strContains (u ++ (s ++ t)) (u ++ s) = true := by
  rw [strContains, String.data_append, String.data_append, String.data_append,
    ← List.append_assoc]
  exact charsHas_self_append _ _

theorem jsOrD_of_falsy (a : Option String) (d : String) (h : jsTruthy a = false) :
    jsOrD a d = d := by
  cases a with
  | none => rfl
  | some s =>
    simp [jsTruthy] at h
    simp [jsOrD, h]

theorem jsOrD_of_truthy (s d : String) (h : ¬ s = "") : jsOrD (some s) d = s := by
  simp [jsOrD, h]

theorem approvalHtml_contains_email (e f p u : String) :
    strContains (approvalHtml e f p u) e = true := by
  unfold approvalHtml
  apply strContains_append_right
  apply strContains_append_right
  apply strContains_append_right
  exact strContains_self_append_str _ _

theorem approvalHtml_contains_password (e f p u : String) :
    strContains (approvalHtml e f p u) p = true := by
  unfold approvalHtml
  apply strContains_append_right
  apply strContains_append_right
  apply strContains_append_right
  apply strContains_append_right
  apply strContains_append_right
  exact strContains_self_append_str _ _

/-- The part of `htmlPart5` after its leading "/login" segment. -/
def htmlPart5tail : String :=
  "\" class=\"button\">Login to Dashboard</a>\n              </div>\n              \n              <p>Once logged in, you can:</p>\n              <ul>\n                <li>Add and manage your services</li>\n                <li>View and manage bookings</li>\n                <li>Update your profile information</li>\n                <li>Track your earnings</li>\n              </ul>\n              \n              <p>If you have any questions, please don\x27t hesitate to contact our support team.</p>\n              \n              <p>Welcome aboard!</p>\n              <p><strong>The Kosmospace Team</strong></p>\n            </div>\n            <div class=\"footer\">\n              <p>This is an automated email. Please do not reply to this message.</p>\n            </div>\n          </div>\n        </body>\n      </html>\n    "

set_option maxRecDepth 40000 in
/-- The final literal chunk starts with the "/login" path segment. -/
theorem htmlPart5_split : htmlPart5 = "/login" ++ htmlPart5tail := by
  decide

theorem approvalHtml_contains_login_link (e f p u : String) :
    strContains (approvalHtml e f p u) (u ++ "/login") = true := by
  unfold approvalHtml
  apply strContains_append_right
  apply strContains_append_right
  apply strContains_append_right
  apply strContains_append_right
  apply strContains_append_right
  apply strContains_append_right
  apply strContains_append_right
  rw [htmlPart5_split]
  exact strContains_prepend_self _ _ _

/-! The claims. -/

/-- C1: with a configured dispatcher, `sendEmail` races the transport call
against the 5000 ms timer; whenever the transport call does not settle
within the bound the call returns `success = false` with the error text
stating the 5000 ms bound and noting the email may still be queued for
delivery — the same result for every losing transport behaviour, so the
eventual fate of the uncancelled transport operation is discarded. -/
theorem C1_sendEmail_timeout_bound (env : Env) (options : EmailOptions) (b : TransportBehavior)
    (hconf : isConfigured env = true) (hslow : transportWins b = false) :
    EMAIL_TIMEOUT_MS = 5000 ∧
    sendEmail env options b = { success := false, error := some timeoutResultMessage } ∧
    strContains timeoutResultMessage "5000ms" = true ∧
    strContains timeoutResultMessage "queued for delivery" = true := by
  refine ⟨rfl, ?_, by decide, by decide⟩
  unfold sendEmail sendEmailFull
  rw [makeEmailService_transporter_of_configured env hconf,
    raceResult_of_timer b hslow]
  simp [thrownMessage, timeoutRaceMessage_has_timeout]

theorem C1_sendEmail_timeout_bound_witness :
    EMAIL_TIMEOUT_MS = 5000 ∧
    sendEmail envConfigured optsSample .hangs =
      { success := false, error := some timeoutResultMessage } ∧
    strContains timeoutResultMessage "5000ms" = true ∧
    strContains timeoutResultMessage "queued for delivery" = true :=
  C1_sendEmail_timeout_bound envConfigured optsSample .hangs (by decide) (by decide)

/-- C2: for every request against an unconfigured dispatcher, `sendEmail`
returns `{success := false, error := "Email service not configured"}`,
attempts no transport call, and logs a warning naming the recipient —
independently of the transport behaviour. -/
theorem C2_sendEmail_unconfigured (env : Env) (options : EmailOptions) (b : TransportBehavior)
    (h : isConfigured env = false) :
    (sendEmailFull env options b).result =
      { success := false, error := some "Email service not configured" } ∧
    (sendEmailFull env options b).transportCall = none ∧
    { level := LogLevel.warn, message := "Email service not configured - email not sent",
      fields := [("to", some options.«to»)] } ∈ (sendEmailFull env options b).logs := by
  unfold sendEmailFull
  rw [makeEmailService_transporter_of_unconfigured env h]
  simp

theorem C2_sendEmail_unconfigured_witness :
    (sendEmailFull envMissing optsSample (.resolves none 0)).result =
      { success := false, error := some "Email service not configured" } ∧
    (sendEmailFull envMissing optsSample (.resolves none 0)).transportCall = none ∧
    { level := LogLevel.warn, message := "Email service not configured - email not sent",
      fields := [("to", some optsSample.«to»)] }
      ∈ (sendEmailFull envMissing optsSample (.resolves none 0)).logs :=
  C2_sendEmail_unconfigured envMissing optsSample (.resolves none 0) (by decide)

/-- C3 as stated fails: a transport rejection whose own message contains
the substring "timeout" (here a transport-side connection timeout, not the
race timer) is not passed through verbatim — the dispatcher substitutes
its crafted timeout message. -/
theorem C3_counterexample :
    sendEmail envConfigured optsSample (.rejectsError "connection timeout" 10) ≠
      { success := false, error := some "connection timeout" } := by
  decide

/-- C3 (amended): every transport rejection that settles within the bound
with an `Error` whose message does not contain the substring "timeout" is
returned verbatim as `{success := false, error := message}`; in particular
a rejection with "Invalid recipient" yields that text unchanged. -/
theorem C3_sendEmail_reject_verbatim (env : Env) (options : EmailOptions) (m : String) (d : Nat)
    (hconf : isConfigured env = true) (hd : d < EMAIL_TIMEOUT_MS)
    (hm : strContains m "timeout" = false) :
    sendEmail env options (.rejectsError m d) = { success := false, error := some m } := by
  unfold sendEmail sendEmailFull
  rw [makeEmailService_transporter_of_configured env hconf]
  simp [raceResult, hd, thrownMessage, hm]

theorem C3_sendEmail_reject_verbatim_witness :
    sendEmail envConfigured optsSample (.rejectsError "Invalid recipient" 0) =
      { success := false, error := some "Invalid recipient" } :=
  C3_sendEmail_reject_verbatim envConfigured optsSample "Invalid recipient" 0
    (by decide) (by decide) (by decide)

/-- C4: `sendEmail` never lets an exception escape — for every environment,
request and transport behaviour (resolution, `Error` rejection, non-`Error`
rejection, or hanging) it returns a structured result: either success with
no error text, or failure with an error message. -/
theorem C4_sendEmail_total (env : Env) (options : EmailOptions) (b : TransportBehavior) :
    sendEmail env options b = { success := true, error := none } ∨
    ∃ m, sendEmail env options b = { success := false, error := some m } := by
  unfold sendEmail sendEmailFull
  cases hc : isConfigured env with
  | false =>
    rw [makeEmailService_transporter_of_unconfigured env hc]
    exact Or.inr ⟨_, rfl⟩
  | true =>
    rw [makeEmailService_transporter_of_configured env hc]
    cases hr : raceResult b with
    | ok mid => simp
    | error e =>
      simp only [Option.isNone_some, Bool.false_eq_true, if_false]
      cases hs : strContains (thrownMessage e) "timeout" <;> simp [hs]

/-- C5 as stated fails: in `envEmptyHost` the host, user and secret
variables are all present in the environment, yet the constructor leaves
the dispatcher unconfigured, because the guard tests JavaScript truthiness
and the empty string is falsy. -/
theorem C5_counterexample :
    envEmptyHost.SMTP_HOST.isSome = true ∧ envEmptyHost.SMTP_USER.isSome = true ∧
    envEmptyHost.SMTP_PASS.isSome = true ∧
    (makeEmailService envEmptyHost).1.transporter = none := by
  decide

/-- C5 (amended): construction is binary and total — the transport client
is built exactly when host, user and secret are all present and non-empty
(JavaScript-truthy); otherwise the dispatcher is permanently unconfigured
and the constructor emits a warning, with no partial-credential mode and
no exception. -/
theorem C5_construction_binary (env : Env) :
    ((makeEmailService env).1.transporter = some (buildTransportConfig env) ∧
      (jsTruthy env.SMTP_HOST && jsTruthy env.SMTP_USER && jsTruthy env.SMTP_PASS) = true) ∨
    ((makeEmailService env).1.transporter = none ∧
      (jsTruthy env.SMTP_HOST && jsTruthy env.SMTP_USER && jsTruthy env.SMTP_PASS) = false ∧
      (makeEmailService env).2 = [{ level := LogLevel.warn, message := "Email service not configured - SMTP credentials missing", fields := [] }]) := by
  cases h : isConfigured env with
  | false =>
    exact Or.inr ⟨makeEmailService_transporter_of_unconfigured env h, h,
      by simp [makeEmailService, h]⟩
  | true =>
    exact Or.inl ⟨makeEmailService_transporter_of_configured env h, h⟩

/-- C6: every `sendEmail` call that reaches the transport hands it a
message whose from-address equals the configured account identity
`SMTP_USER`, never a caller-supplied value, whatever the request holds. -/
theorem C6_from_is_account_identity (env : Env) (options : EmailOptions) (b : TransportBehavior)
    (hconf : isConfigured env = true) :
    (sendEmailFull env options b).transportCall =
      some { «from» := env.SMTP_USER, «to» := options.«to»,
             subject := options.subject, html := options.html } := by
  unfold sendEmailFull
  rw [makeEmailService_transporter_of_configured env hconf]
  cases hr : raceResult b with
  | ok mid => simp
  | error e =>
    simp only [Option.isNone_some, Bool.false_eq_true, if_false]
    cases hs : strContains (thrownMessage e) "timeout" <;> simp [hs]

theorem C6_from_is_account_identity_witness :
    (sendEmailFull envConfigured optsSample (.resolves (some "id1") 10)).transportCall =
      some { «from» := envConfigured.SMTP_USER, «to» := optsSample.«to»,
             subject := optsSample.subject, html := optsSample.html } :=
  C6_from_is_account_identity envConfigured optsSample (.resolves (some "id1") 10) (by decide)

/-- C7: the approval notification builds an HTML body containing the
supplied email and password verbatim, chooses the login-link base in
priority order (truthy front-end URL, else first domain-list entry when
truthy, else the literal default), and delegates to `sendEmail` with the
fixed subject. -/
theorem C7_approval_email (env : Env) (email firstName password : String) (b : TransportBehavior) :
    sendBeauticianApprovalEmail env email firstName password b =
      sendEmailFull env { «to» := email, subject := approvalSubject,
                          html := approvalHtml email firstName password (loginUrlOf env) } b ∧
    approvalSubject = "Welcome to Kosmospace - Your Application Has Been Approved!" ∧
    strContains (approvalHtml email firstName password (loginUrlOf env)) email = true ∧
    strContains (approvalHtml email firstName password (loginUrlOf env)) password = true ∧
    (∀ u, env.FRONTEND_URL = some u → u ≠ "" → loginUrlOf env = u) ∧
    (∀ s, jsTruthy env.FRONTEND_URL = false → env.REPLIT_DOMAINS = some s →
      firstDomain s ≠ "" → loginUrlOf env = firstDomain s) ∧
    (jsTruthy env.FRONTEND_URL = false →
      jsTruthy (env.REPLIT_DOMAINS.map firstDomain) = false →
      loginUrlOf env = defaultLoginBase) := by
  refine ⟨rfl, rfl,
    approvalHtml_contains_email email firstName password (loginUrlOf env),
    approvalHtml_contains_password email firstName password (loginUrlOf env),
    ?_, ?_, ?_⟩
  · intro u hu hne
    rw [loginUrlOf, hu, jsOrD_of_truthy u _ hne]
  · intro s hF hR hne
    rw [loginUrlOf, jsOrD_of_falsy _ _ hF, hR, Option.map_some', jsOrD_of_truthy _ _ hne]
  · intro hF hR
    rw [loginUrlOf, jsOrD_of_falsy _ _ hF, jsOrD_of_falsy _ _ hR]

theorem C7_approval_email_witness :
    strContains (approvalHtml "e@x" "Fn" "pw" (loginUrlOf envConfigured)) "e@x" = true ∧
    strContains (approvalHtml "e@x" "Fn" "pw" (loginUrlOf envConfigured)) "pw" = true ∧
    loginUrlOf envConfigured = defaultLoginBase :=
  ⟨(C7_approval_email envConfigured "e@x" "Fn" "pw" .hangs).2.2.1,
   (C7_approval_email envConfigured "e@x" "Fn" "pw" .hangs).2.2.2.1,
   (C7_approval_email envConfigured "e@x" "Fn" "pw" .hangs).2.2.2.2.2.2 rfl rfl⟩

/-- C8: when configured, the transport client defaults its port to 587
when the port variable is unset, sets its secure flag exactly when the
port variable equals the string "465", and sets the connection, socket and
greeting timeout budgets all to 5000 ms. -/
theorem C8_transport_config (env : Env) (hconf : isConfigured env = true) :
    (makeEmailService env).1.transporter = some (buildTransportConfig env) ∧
    (env.SMTP_PORT = none → (buildTransportConfig env).port = some 587) ∧
    ((buildTransportConfig env).secure = true ↔ env.SMTP_PORT = some "465") ∧
    (buildTransportConfig env).connectionTimeout = 5000 ∧
    (buildTransportConfig env).socketTimeout = 5000 ∧
    (buildTransportConfig env).greetingTimeout = 5000 := by
  refine ⟨makeEmailService_transporter_of_configured env hconf, ?_, ?_, rfl, rfl, rfl⟩
  · intro h
    simp only [buildTransportConfig]
    rw [h]
    decide
  · simp [buildTransportConfig]

theorem C8_transport_config_witness :
    (makeEmailService envConfigured).1.transporter = some (buildTransportConfig envConfigured) ∧
    (buildTransportConfig envConfigured).port = some 587 ∧
    (buildTransportConfig envConfigured).connectionTimeout = 5000 ∧
    (buildTransportConfig envConfigured).socketTimeout = 5000 ∧
    (buildTransportConfig envConfigured).greetingTimeout = 5000 :=
  ⟨(C8_transport_config envConfigured (by decide)).1,
   (C8_transport_config envConfigured (by decide)).2.1 rfl,
   (C8_transport_config envConfigured (by decide)).2.2.2.1,
   (C8_transport_config envConfigured (by decide)).2.2.2.2.1,
   (C8_transport_config envConfigured (by decide)).2.2.2.2.2⟩

/-- C9: a transport rejection with a value that is not an `Error` instance
is reported as `{success := false, error := "Unknown error"}`, with no
text derived from the thrown value. -/
theorem C9_nonError_unknown (env : Env) (options : EmailOptions) (d : Nat)
    (hconf : isConfigured env = true) (hd : d < EMAIL_TIMEOUT_MS) :
    sendEmail env options (.rejectsOther d) =
      { success := false, error := some "Unknown error" } := by
  unfold sendEmail sendEmailFull
  rw [makeEmailService_transporter_of_configured env hconf]
  simp [raceResult, hd, thrownMessage, unknownError_no_timeout]

theorem C9_nonError_unknown_witness :
    sendEmail envConfigured optsSample (.rejectsOther 3) =
      { success := false, error := some "Unknown error" } :=
  C9_nonError_unknown envConfigured optsSample 3 (by decide) (by decide)

/-- C10: the link-base fallback tests truthiness rather than presence —
a front-end URL variable set to the empty string is skipped in favour of
the domain list, a domain list whose first comma-separated entry is empty
falls through to the literal default, and the final link in the HTML body
is the chosen base with "/login" appended. -/
theorem C10_link_fallback_truthiness (env : Env) (email firstName password s : String) :
    (env.FRONTEND_URL = some "" → env.REPLIT_DOMAINS = some s → firstDomain s ≠ "" →
      loginUrlOf env = firstDomain s) ∧
    (jsTruthy env.FRONTEND_URL = false → env.REPLIT_DOMAINS = some s → firstDomain s = "" →
      loginUrlOf env = defaultLoginBase) ∧
    strContains (approvalHtml email firstName password (loginUrlOf env))
      (loginUrlOf env ++ "/login") = true := by
  refine ⟨?_, ?_,
    approvalHtml_contains_login_link email firstName password (loginUrlOf env)⟩
  · intro hF hR hne
    rw [loginUrlOf, hF, jsOrD_of_falsy (some "") _ (by decide), hR, Option.map_some',
      jsOrD_of_truthy _ _ hne]
  · intro hF hR hemp
    rw [loginUrlOf, jsOrD_of_falsy _ _ hF, hR, Option.map_some', hemp,
      jsOrD_of_falsy (some "") _ (by decide)]

theorem C10_link_fallback_truthiness_witness :
    loginUrlOf envEmptyFrontend = firstDomain "app.test,alt.test" ∧
    strContains (approvalHtml "e@x" "Fn" "pw" (loginUrlOf envEmptyFrontend))
      (loginUrlOf envEmptyFrontend ++ "/login") = true :=
  ⟨(C10_link_fallback_truthiness envEmptyFrontend "e@x" "Fn" "pw" "app.test,alt.test").1
      rfl rfl (by decide),
   (C10_link_fallback_truthiness envEmptyFrontend "e@x" "Fn" "pw" "app.test,alt.test").2.2⟩

end GlamHome
